import Mathlib

/-!
Verification of the core of `gurs-creative-field`: the spatial layout /
collision-resolution algorithm (`processedProjects` in `src/App.tsx`) and the
procedural audio engine (`AudioService` in `src/services/audioService.ts`).

The layout algorithm is embedded over `ℚ`.  The only non-rational operation
the source performs is `Math.sqrt`; the embedding therefore takes the square
root as an explicit function parameter `sq : ℚ → ℚ`, and theorems that depend
on its value carry hypotheses pinning it down at the points where it is used
(`sq d * sq d = d`, `sq 0 = 0`, ...).  For concrete evaluations we use
`ratSqrt`, which is exact on rationals that are perfect squares — all concrete
inputs below are chosen so that every square root taken in the computation is
a perfect square, hence the evaluation agrees with the source's real-valued
computation.

The audio service is embedded as a state machine.  A JavaScript method that
can throw is modelled with `Except String`; a method that cannot throw is a
total function on states.  The platform (whether `window.AudioContext` is
available / construction succeeds) is a `Bool` parameter.
-/

namespace CreativeField

/-- A raw work record, as consumed by the layout code in `src/App.tsx`.
`techScore`, `musicScore` and the legacy `artScore` may each be absent
(JS `undefined`), modelled with `Option`.  Non-score metadata is opaque to
the layout algorithm; `id` stands in for it. -/
structure Project where
  id : String
  techScore : Option ℚ
  musicScore : Option ℚ
  artScore : Option ℚ
deriving DecidableEq, Repr

/-- A positioned node: the record plus its normalized scores and world-space
coordinates (the `vx`/`vy` fields of the source are written once and never
read, so they are omitted). -/
structure Node where
  id : String
  techScore : ℚ
  musicScore : ℚ
  x : ℚ
  y : ℚ
deriving DecidableEq, Repr

/-- `const WORLD_WIDTH = 3000` in `src/App.tsx`. -/
def WORLD_WIDTH : ℚ := 3000

/-- `const WORLD_HEIGHT = 3000` in `src/App.tsx`. -/
def WORLD_HEIGHT : ℚ := 3000

/-- `const TILE_SIZE = 320` in `src/App.tsx` (the minimum separation). -/
def TILE_SIZE : ℚ := 320

/-- Step 1 of `processedProjects`: initial placement of one record
(`src/App.tsx` lines 129–145).  `techVal = p.techScore ?? 50`,
`musicVal = p.musicScore ?? p.artScore ?? 50`. -/
def initialNode (p : Project) : Node :=
  let margin : ℚ := 400
  let usableWidth := WORLD_WIDTH - margin * 2
  let usableHeight := WORLD_HEIGHT - margin * 2
  let techVal := p.techScore.getD 50
  let musicVal := p.musicScore.getD (p.artScore.getD 50)
  { id := p.id
    techScore := techVal
    musicScore := musicVal
    x := margin + (techVal / 100) * usableWidth
    y := margin + ((100 - musicVal) / 100) * usableHeight }

/-- Initial placement of the whole list. -/
def initialNodes (ps : List Project) : List Node := ps.map initialNode

/-- Squared center distance between two nodes. -/
def distSq (a b : Node) : ℚ :=
  (a.x - b.x) * (a.x - b.x) + (a.y - b.y) * (a.y - b.y)

/-- One pair interaction of the repulsion loop (`src/App.tsx` lines 153–176).
`sq` models `Math.sqrt`; the JS `Math.sqrt(distSq) || 0.1` substitutes `0.1`
when the square root is `0` (the JS `||` on a falsy number). -/
def repelPairUpd (sq : ℚ → ℚ) (a b : Node) : Node × Node :=
  let dx := a.x - b.x
  let dy := a.y - b.y
  let dsq := dx * dx + dy * dy
  if dsq < TILE_SIZE * TILE_SIZE then
    let dist0 := sq dsq
    let dist := if dist0 = 0 then (0.1 : ℚ) else dist0
    let overlap := TILE_SIZE - dist
    let nx := dx / dist
    let ny := dy / dist
    let force := overlap * (0.8 : ℚ)
    ({ a with x := a.x + nx * force, y := a.y + ny * force },
     { b with x := b.x - nx * force, y := b.y - ny * force })
  else (a, b)

/-- Inner loop of one repulsion pass: interact node `a` (at index `a` in the
source) sequentially with every later node, threading the in-place updates
exactly as the mutable JS loop does. -/
def repelWith (sq : ℚ → ℚ) : Node → List Node → Node × List Node
  | a, [] => (a, [])
  | a, b :: rest =>
    let ab := repelPairUpd sq a b
    let ar := repelWith sq ab.1 rest
    (ar.1, ab.2 :: ar.2)

/-- Outer loop of one repulsion pass, structured on a fuel argument that is
always instantiated with the list length (which `repelWith` preserves, so the
fuel never runs out). -/
def repelPassAux (sq : ℚ → ℚ) : ℕ → List Node → List Node
  | 0, ns => ns
  | _ + 1, [] => []
  | k + 1, a :: rest =>
    let ar := repelWith sq a rest
    ar.1 :: repelPassAux sq k ar.2

/-- One full repulsion pass over all unordered pairs `(a, b)` with `a < b`,
in source order, with in-place update semantics. -/
def repelPass (sq : ℚ → ℚ) (ns : List Node) : List Node :=
  repelPassAux sq ns.length ns

/-- Boundary constraint applied to one node after each iteration
(`src/App.tsx` lines 181–184):
`node.x = Math.max(200, Math.min(WORLD_WIDTH - 200, node.x))` and the same
for `y`. -/
def clampNode (nd : Node) : Node :=
  { nd with
    x := max 200 (min (WORLD_WIDTH - 200) nd.x)
    y := max 200 (min (WORLD_HEIGHT - 200) nd.y) }

/-- The boundary-constraint pass (`nodes.forEach(...)`). -/
def clampPass (ns : List Node) : List Node := ns.map clampNode

/-- `k` iterations of (repulsion pass, then clamp pass), the body of
`for (let i = 0; i < iterations; i++)`. -/
def layoutIter (sq : ℚ → ℚ) : ℕ → List Node → List Node
  | 0, ns => ns
  | k + 1, ns => layoutIter sq k (clampPass (repelPass sq ns))

/-- The full layout computation `processedProjects` (`src/App.tsx` lines
125–192): empty input short-circuits to `[]`; otherwise initial placement
followed by `iterations = 120` repel/clamp passes.  The final
`nodes.map(n => ({ ...n, x: n.x, y: n.y }))` of the source is the identity
and is not repeated here. -/
def processedProjects (sq : ℚ → ℚ) (ps : List Project) : List Node :=
  if ps.isEmpty then [] else layoutIter sq 120 (initialNodes ps)

/-- A computable square root on `ℚ`, exact on rationals that are squares of
rationals (numerator and denominator both perfect squares).  Used to
instantiate `sq` on concrete inputs engineered so that every root taken is
exact. -/
def ratSqrt (q : ℚ) : ℚ := (Nat.sqrt q.num.toNat : ℚ) / (Nat.sqrt q.den : ℚ)

/-- Score sanity for a record: its normalized scores lie in `[0, 100]`. -/
def scoreOK (p : Project) : Prop :=
  0 ≤ p.techScore.getD 50 ∧ p.techScore.getD 50 ≤ 100 ∧
  0 ≤ p.musicScore.getD (p.artScore.getD 50) ∧
  p.musicScore.getD (p.artScore.getD 50) ≤ 100

instance (p : Project) : Decidable (scoreOK p) := by
  unfold scoreOK; infer_instance

/-- A node lies within the post-clamp world bounds. -/
def inBounds (nd : Node) : Prop :=
  200 ≤ nd.x ∧ nd.x ≤ WORLD_WIDTH - 200 ∧ 200 ≤ nd.y ∧ nd.y ≤ WORLD_HEIGHT - 200

instance (nd : Node) : Decidable (inBounds nd) := by
  unfold inBounds; infer_instance

/-- Two nodes are at (squared) distance at least the minimum separation. -/
def farPair (a b : Node) : Prop := TILE_SIZE * TILE_SIZE ≤ distSq a b

instance (a b : Node) : Decidable (farPair a b) := by
  unfold farPair; infer_instance

/-- The identity-and-score part of a node, used to state that the layout
passes never alter a record, only its coordinates. -/
def scoreView (nd : Node) : String × ℚ × ℚ := (nd.id, nd.techScore, nd.musicScore)

/- ### Audio engine model (`src/services/audioService.ts`) -/

/-- Observable state of the `AudioService` singleton.  Nullable node fields
of the source are tracked by the Booleans `ctxCreated` (audioCtx non-null)
and `graphBuilt` (masterGain / filterNode / oscillators / delay non-null —
they are all created together by `start()`).  `oscCount` counts oscillator
nodes ever created, `buildCount` counts signal-chain constructions.  The
`...Target` fields hold the last scheduled ramp target of the corresponding
audio parameter. -/
structure AudioState where
  ctxCreated : Bool
  ctxSuspended : Bool
  graphBuilt : Bool
  isPlaying : Bool
  isMuted : Bool
  oscCount : ℕ
  buildCount : ℕ
  masterGainTarget : ℚ
  fadeFrom : ℚ
  fadeSeconds : ℚ
  filterFreqTarget : ℚ
  oscSubFreqTarget : ℚ
  oscLowFreqTarget : ℚ
  oscHighFreqTarget : ℚ
  delayGainTarget : ℚ
  delayTimeValue : ℚ
  pannerLowPan : ℚ
  pannerHighPan : ℚ
deriving DecidableEq, Repr

/-- State of the module-level singleton before any method call: every node
reference is null, nothing playing, nothing muted. -/
def initialAudioState : AudioState :=
  { ctxCreated := false, ctxSuspended := false, graphBuilt := false
    isPlaying := false, isMuted := false, oscCount := 0, buildCount := 0
    masterGainTarget := 0, fadeFrom := 0, fadeSeconds := 0
    filterFreqTarget := 0, oscSubFreqTarget := 0, oscLowFreqTarget := 0
    oscHighFreqTarget := 0, delayGainTarget := 0, delayTimeValue := 0
    pannerLowPan := 0, pannerHighPan := 0 }

/-- `AudioService.initialize()` (lines 20–24): returns if a context already
exists; otherwise `new AudioContextClass()`.  When the platform offers no
constructor (or construction is denied), that `new` throws synchronously —
there is no try/catch in the method — modelled by `Except.error`.
`plat` is true iff audio-context creation succeeds. -/
def initCtx (plat : Bool) (s : AudioState) : Except String AudioState :=
  if s.ctxCreated then .ok s
  else if plat then .ok { s with ctxCreated := true, ctxSuspended := false }
  else .error "AudioContext constructor threw"

/-- `AudioService.start()` (lines 26–105), one settled call.  A rejected
promise (the only way the `async` method fails: the synchronous throw of
`initialize` escapes into the promise) is `Except.error`.  On first
successful run it resumes a suspended context, then builds the whole signal
chain exactly once: master gain scheduled `setValueAtTime(0)` then
`linearRampToValueAtTime(isMuted ? 0 : 0.5, now + 3)`; delay 0.4 s with
feedback gain 0.3; lowpass filter at 600 Hz, Q 1; three oscillators (sub
55 Hz center, low 110 Hz panned −0.6, high 165 Hz panned 0.6). -/
def start (plat : Bool) (s : AudioState) : Except String AudioState :=
  match (if s.ctxCreated then .ok s else initCtx plat s :
      Except String AudioState) with
  | .error e => .error e
  | .ok s1 =>
    if !s1.ctxCreated then .ok s1
    else
      let s2 := if s1.ctxSuspended then { s1 with ctxSuspended := false } else s1
      if s2.isPlaying then .ok s2
      else
        .ok { s2 with
          isPlaying := true
          graphBuilt := true
          buildCount := s2.buildCount + 1
          oscCount := s2.oscCount + 3
          fadeFrom := 0
          masterGainTarget := if s2.isMuted then 0 else (0.5 : ℚ)
          fadeSeconds := 3
          delayTimeValue := (0.4 : ℚ)
          delayGainTarget := (0.3 : ℚ)
          filterFreqTarget := 600
          oscSubFreqTarget := 55
          oscLowFreqTarget := 110
          oscHighFreqTarget := 165
          pannerLowPan := -(0.6 : ℚ)
          pannerHighPan := (0.6 : ℚ) }

/-- `AudioService.updateParams(x, y)` (lines 107–138).  Guard: returns
unchanged unless the context and the graph nodes all exist.  Otherwise
retargets the four smoothed ramps; no node is created.  The method contains
no throwing operation, so it is a total function on states. -/
def updateParams (x y : ℚ) (s : AudioState) : AudioState :=
  if !s.ctxCreated || !s.graphBuilt then s
  else
    let minFilter : ℚ := 300
    let maxFilter : ℚ := 6000
    let targetFreq := minFilter + (maxFilter - minFilter) * (x * x)
    let root : ℚ := 110
    let targetLow := root + (y * 30)
    let targetHigh := (root * (1.5 : ℚ)) + (y * 35)
    { s with
      filterFreqTarget := targetFreq
      oscLowFreqTarget := targetLow
      oscHighFreqTarget := targetHigh
      delayGainTarget := (0.2 : ℚ) + (x * (0.3 : ℚ)) }

/-- `AudioService.toggleMute(muted)` (lines 140–151).  Records the flag
first; if the context or master gain is missing it returns there, otherwise
it retargets the master gain (time constant 0.1 s).  Total: no throwing
operation. -/
def toggleMute (muted : Bool) (s : AudioState) : AudioState :=
  let s1 := { s with isMuted := muted }
  if !s1.ctxCreated || !s1.graphBuilt then s1
  else if muted then { s1 with masterGainTarget := 0 }
  else { s1 with masterGainTarget := (0.5 : ℚ) }

/-- `n` sequential `start()` calls, each settling before the next. -/
def startN (plat : Bool) : ℕ → AudioState → Except String AudioState
  | 0, s => .ok s
  | n + 1, s =>
    match start plat s with
    | .error e => .error e
    | .ok s1 => startN plat n s1

/-- The state after the first successful `start()` from the initial state on
a permissive platform. -/
def builtOnce : AudioState :=
  { ctxCreated := true, ctxSuspended := false, graphBuilt := true
    isPlaying := true, isMuted := false, oscCount := 3, buildCount := 1
    masterGainTarget := (0.5 : ℚ), fadeFrom := 0, fadeSeconds := 3
    filterFreqTarget := 600, oscSubFreqTarget := 55, oscLowFreqTarget := 110
    oscHighFreqTarget := 165, delayGainTarget := (0.3 : ℚ)
    delayTimeValue := (0.4 : ℚ), pannerLowPan := -(0.6 : ℚ)
    pannerHighPan := (0.6 : ℚ) }

/- ### Concrete inputs for witnesses and counterexamples -/

/-- A record with both scores present at mid-value. -/
def demoProject : Project :=
  { id := "demo", techScore := some 50, musicScore := some 50, artScore := none }

/-- A second record with identical scores but a different identity. -/
def demoProject2 : Project :=
  { id := "demo2", techScore := some 50, musicScore := some 50, artScore := none }

/-- Record placed at world position `(1000, 1000)`. -/
def cexA : Project :=
  { id := "a", techScore := some (300 / 11), musicScore := some (800 / 11),
    artScore := none }

/-- Second record with exactly the same scores as `cexA`. -/
def cexB : Project :=
  { id := "b", techScore := some (300 / 11), musicScore := some (800 / 11),
    artScore := none }

/-- Record placed at world position `(1200, 1000)`, near the coincident
pair. -/
def cexC : Project :=
  { id := "c", techScore := some (400 / 11), musicScore := some (800 / 11),
    artScore := none }

/-- Corner record: `techScore 0`, `musicScore 100` → initial `(400, 400)`. -/
def farProj1 : Project :=
  { id := "p1", techScore := some 0, musicScore := some 100, artScore := none }

/-- Corner record: `techScore 100`, `musicScore 0` → initial `(2600, 2600)`. -/
def farProj2 : Project :=
  { id := "p2", techScore := some 100, musicScore := some 0, artScore := none }

/-- Nodes 100 world units apart, used for the repulsion-force computation. -/
def forceNodeA : Node := { id := "fa", techScore := 0, musicScore := 0, x := 0, y := 0 }

/-- See `forceNodeA`. -/
def forceNodeB : Node := { id := "fb", techScore := 0, musicScore := 0, x := 100, y := 0 }

/- ### Layout helper lemmas -/

/-- A pair interaction changes only coordinates, never identity or scores. -/
theorem repelPairUpd_scoreView (sq : ℚ → ℚ) (a b : Node) :
    scoreView (repelPairUpd sq a b).1 = scoreView a ∧
    scoreView (repelPairUpd sq a b).2 = scoreView b := by
  simp only [repelPairUpd]
  split <;> exact ⟨rfl, rfl⟩

/-- The inner repulsion loop changes only coordinates. -/
theorem repelWith_scoreView (sq : ℚ → ℚ) (l : List Node) :
    ∀ a : Node,
      scoreView (repelWith sq a l).1 = scoreView a ∧
      (repelWith sq a l).2.map scoreView = l.map scoreView := by
  induction l with
  | nil => intro a; exact ⟨rfl, rfl⟩
  | cons b rest ih =>
    intro a
    have h1 := repelPairUpd_scoreView sq a b
    have h2 := ih (repelPairUpd sq a b).1
    refine ⟨h2.1.trans h1.1, ?_⟩
    simp only [repelWith, List.map_cons]
    rw [h1.2, h2.2]

/-- The inner repulsion loop preserves the length of the tail. -/
theorem repelWith_length (sq : ℚ → ℚ) (l : List Node) (a : Node) :
    (repelWith sq a l).2.length = l.length := by
  have h := (repelWith_scoreView sq l a).2
  simpa using congrArg List.length h

/-- A full repulsion pass changes only coordinates. -/
theorem repelPassAux_scoreView (sq : ℚ → ℚ) :
    ∀ (k : ℕ) (ns : List Node),
      (repelPassAux sq k ns).map scoreView = ns.map scoreView
  | 0, _ => rfl
  | _ + 1, [] => rfl
  | k + 1, a :: rest => by
    have h := repelWith_scoreView sq rest a
    simp only [repelPassAux, List.map_cons]
    rw [h.1, repelPassAux_scoreView sq k _, h.2]

/-- A full repulsion pass changes only coordinates. -/
theorem repelPass_scoreView (sq : ℚ → ℚ) (ns : List Node) :
    (repelPass sq ns).map scoreView = ns.map scoreView :=
  repelPassAux_scoreView sq ns.length ns

/-- Clamping changes only coordinates. -/
theorem clampPass_scoreView (ns : List Node) :
    (clampPass ns).map scoreView = ns.map scoreView := by
  induction ns with
  | nil => rfl
  | cons a rest ih =>
    simp only [clampPass, List.map_cons] at *
    rw [ih]
    rfl

/-- The whole iteration changes only coordinates. -/
theorem layoutIter_scoreView (sq : ℚ → ℚ) :
    ∀ (k : ℕ) (ns : List Node),
      (layoutIter sq k ns).map scoreView = ns.map scoreView
  | 0, _ => rfl
  | k + 1, ns => by
    show (layoutIter sq k (clampPass (repelPass sq ns))).map scoreView = _
    rw [layoutIter_scoreView sq k _, clampPass_scoreView, repelPass_scoreView]

/-- A clamped node satisfies the boundary invariant. -/
theorem clampNode_inBounds (nd : Node) : inBounds (clampNode nd) := by
  unfold inBounds clampNode WORLD_WIDTH WORLD_HEIGHT
  refine ⟨le_max_left _ _, ?_, le_max_left _ _, ?_⟩ <;>
    exact max_le (by norm_num) (min_le_left _ _)

/-- After at least one iteration, every node satisfies the boundary
invariant. -/
theorem layoutIter_inBounds (sq : ℚ → ℚ) (k : ℕ) :
    ∀ ns : List Node, ∀ nd ∈ layoutIter sq (k + 1) ns, inBounds nd := by
  induction k with
  | zero =>
    intro ns nd hnd
    have : nd ∈ clampPass (repelPass sq ns) := hnd
    obtain ⟨m, _, rfl⟩ := List.mem_map.mp this
    exact clampNode_inBounds m
  | succ k ih =>
    intro ns nd hnd
    exact ih (clampPass (repelPass sq ns)) nd hnd

/-- Clamping is the identity on a node already in bounds. -/
theorem clampNode_id (nd : Node) (h : inBounds nd) : clampNode nd = nd := by
  obtain ⟨h1, h2, h3, h4⟩ := h
  unfold clampNode
  rw [min_eq_right h2, max_eq_right h1, min_eq_right h4, max_eq_right h3]

/-- Clamping is the identity on a list of in-bounds nodes. -/
theorem clampPass_id (ns : List Node) (h : ∀ nd ∈ ns, inBounds nd) :
    clampPass ns = ns := by
  induction ns with
  | nil => rfl
  | cons a rest ih =>
    simp only [clampPass, List.map_cons] at *
    rw [clampNode_id a (h a (by simp)), ih (fun nd hnd => h nd (by simp [hnd]))]

/-- A pair interaction at distance at least the minimum separation leaves
both nodes unchanged. -/
theorem repelPairUpd_far (sq : ℚ → ℚ) (a b : Node) (h : farPair a b) :
    repelPairUpd sq a b = (a, b) := by
  unfold farPair distSq at h
  unfold repelPairUpd
  exact if_neg (not_lt.mpr h)

/-- The inner loop leaves everything unchanged when node `a` is far from the
whole tail. -/
theorem repelWith_far (sq : ℚ → ℚ) (l : List Node) (a : Node)
    (h : ∀ b ∈ l, farPair a b) : repelWith sq a l = (a, l) := by
  induction l with
  | nil => rfl
  | cons b rest ih =>
    have hb : farPair a b := h b (by simp)
    simp only [repelWith, repelPairUpd_far sq a b hb]
    rw [ih (fun c hc => h c (by simp [hc]))]

/-- A repulsion pass over pairwise-separated nodes is the identity. -/
theorem repelPassAux_far (sq : ℚ → ℚ) :
    ∀ (k : ℕ) (ns : List Node), ns.Pairwise farPair → repelPassAux sq k ns = ns
  | 0, _, _ => rfl
  | _ + 1, [], _ => rfl
  | k + 1, a :: rest, h => by
    rw [List.pairwise_cons] at h
    simp only [repelPassAux, repelWith_far sq rest a h.1]
    rw [repelPassAux_far sq k rest h.2]

/-- A repulsion pass over pairwise-separated nodes is the identity. -/
theorem repelPass_far (sq : ℚ → ℚ) (ns : List Node)
    (h : ns.Pairwise farPair) : repelPass sq ns = ns :=
  repelPassAux_far sq ns.length ns h

/-- The whole iteration is the identity on pairwise-separated, in-bounds
nodes. -/
theorem layoutIter_id (sq : ℚ → ℚ) (k : ℕ) (ns : List Node)
    (hfar : ns.Pairwise farPair) (hb : ∀ nd ∈ ns, inBounds nd) :
    layoutIter sq k ns = ns := by
  induction k with
  | zero => rfl
  | succ k ih =>
    show layoutIter sq k (clampPass (repelPass sq ns)) = ns
    rw [repelPass_far sq ns hfar, clampPass_id ns hb, ih]

/-- The initial placement of a record with sane scores is in bounds. -/
theorem initialNode_inBounds (p : Project) (h : scoreOK p) :
    inBounds (initialNode p) := by
  obtain ⟨h1, h2, h3, h4⟩ := h
  unfold initialNode inBounds WORLD_WIDTH WORLD_HEIGHT
  dsimp only
  refine ⟨by nlinarith, by nlinarith, by nlinarith, by nlinarith⟩

/-- A pair interaction between two coincident nodes is the identity: the
displacement is the zero vector, `Math.sqrt(0) || 0.1` substitutes the
epsilon `0.1`, and dividing the zero displacement by the (nonzero) distance
gives a zero push direction — for any value of `sq` at `0`. -/
theorem repelPairUpd_coincident (sq : ℚ → ℚ) (a b : Node)
    (hx : a.x = b.x) (hy : a.y = b.y) : repelPairUpd sq a b = (a, b) := by
  have hdx : a.x - b.x = 0 := by rw [hx, sub_self]
  have hdy : a.y - b.y = 0 := by rw [hy, sub_self]
  simp only [repelPairUpd, hdx, hdy, mul_zero, zero_mul, add_zero, zero_add,
    zero_div, sub_zero]
  split <;> rfl

/-- A full repulsion pass on a two-node list of coincident nodes is the
identity. -/
theorem repelPass_coincident_two (sq : ℚ → ℚ) (a b : Node)
    (hx : a.x = b.x) (hy : a.y = b.y) : repelPass sq [a, b] = [a, b] := by
  simp only [repelPass, repelPassAux, repelWith,
    repelPairUpd_coincident sq a b hx hy]

/-- Any number of iterations keeps a coincident two-node list coincident. -/
theorem layoutIter_coincident (sq : ℚ → ℚ) :
    ∀ (k : ℕ) (a b : Node), a.x = b.x → a.y = b.y →
      ∃ a2 b2, layoutIter sq k [a, b] = [a2, b2] ∧ a2.x = b2.x ∧ a2.y = b2.y := by
  intro k
  induction k with
  | zero => intro a b hx hy; exact ⟨a, b, rfl, hx, hy⟩
  | succ k ih =>
    intro a b hx hy
    show ∃ a2 b2,
      layoutIter sq k (clampPass (repelPass sq [a, b])) = [a2, b2] ∧
        a2.x = b2.x ∧ a2.y = b2.y
    rw [repelPass_coincident_two sq a b hx hy]
    show ∃ a2 b2,
      layoutIter sq k [clampNode a, clampNode b] = [a2, b2] ∧
        a2.x = b2.x ∧ a2.y = b2.y
    exact ih (clampNode a) (clampNode b) (by simp [clampNode, hx])
      (by simp [clampNode, hy])

/- ### Audio helper lemmas -/

/-- The first `start()` from the pristine singleton on a permissive platform
yields exactly `builtOnce`. -/
theorem start_initial : start true initialAudioState = .ok builtOnce := rfl

/-- `start()` on an already-running engine returns without rebuilding. -/
theorem start_built : start true builtOnce = .ok builtOnce := rfl

/-- Any further sequence of `start()` calls leaves the built state fixed. -/
theorem startN_stable (n : ℕ) : startN true n builtOnce = .ok builtOnce := by
  induction n with
  | zero => rfl
  | succ n ih =>
    show (match start true builtOnce with
      | .error e => Except.error e
      | .ok s1 => startN true n s1) = .ok builtOnce
    rw [start_built]
    exact ih


/- ### Concrete evaluation lemmas -/

/-- `ratSqrt` is exact at `10000`. -/
theorem ratSqrt_val_10000 : ratSqrt 10000 = 100 := by
  unfold ratSqrt
  rw [show ((10000 : ℚ)).num.toNat = 10000 from rfl]
  norm_num

/-- `ratSqrt` is exact at `40000`. -/
theorem ratSqrt_val_40000 : ratSqrt 40000 = 200 := by
  unfold ratSqrt
  rw [show ((40000 : ℚ)).num.toNat = 40000 from rfl]
  norm_num

/-- `ratSqrt` is exact at `87616 = 296²`. -/
theorem ratSqrt_val_87616 : ratSqrt 87616 = 296 := by
  unfold ratSqrt
  rw [show ((87616 : ℚ)).num.toNat = 87616 from rfl]
  norm_num

/-- The two force-demo nodes are 100 units apart. -/
theorem distSq_forceNodes : distSq forceNodeA forceNodeB = 10000 := by
  norm_num [distSq, forceNodeA, forceNodeB]

/-- One pair interaction on the force-demo nodes, computed: overlap is
`320 − 100 = 220`, force is `220 × 0.8 = 176`, and EACH node moves by the
full 176 along the x axis. -/
theorem repelPairUpd_forceNodes :
    repelPairUpd ratSqrt forceNodeA forceNodeB
      = ({ id := "fa", techScore := 0, musicScore := 0, x := -176, y := 0 },
         { id := "fb", techScore := 0, musicScore := 0, x := 276, y := 0 }) := by
  simp only [repelPairUpd, forceNodeA, forceNodeB]
  norm_num [TILE_SIZE, ratSqrt_val_10000]

/- ### Claim theorems -/

/-- C1 counterexample: at nodes 100 units apart (overlap 220), each node's
displacement is `176 = 0.8 × overlap`, not the claimed half `88`: the claim
that each item moves half of `0.8 × overlap` is false on this input. -/
theorem C1_cex :
    |(repelPairUpd ratSqrt forceNodeA forceNodeB).1.x - forceNodeA.x| =
        (TILE_SIZE - ratSqrt (distSq forceNodeA forceNodeB)) * (0.8 : ℚ) ∧
    |(repelPairUpd ratSqrt forceNodeA forceNodeB).2.x - forceNodeB.x| =
        (TILE_SIZE - ratSqrt (distSq forceNodeA forceNodeB)) * (0.8 : ℚ) ∧
    (TILE_SIZE - ratSqrt (distSq forceNodeA forceNodeB)) * (0.8 : ℚ) = 176 ∧
    (TILE_SIZE - ratSqrt (distSq forceNodeA forceNodeB)) * (0.8 : ℚ) / 2 = 88 ∧
    (176 : ℚ) ≠ 88 := by
  rw [distSq_forceNodes, ratSqrt_val_10000, repelPairUpd_forceNodes]
  norm_num [forceNodeA, forceNodeB, TILE_SIZE]

/-- C1 (amended): in a repulsion iteration, a pair of items closer than
`minSeparation` is pushed apart along the line connecting their centers with
EACH item moving the full `0.8 × overlap` in opposite directions (total
corrective distance `1.6 × overlap`), not half each.  Stated for any square
root `sq` that is exact and positive at the pair's squared distance (so the
epsilon substitution for coincident points does not fire): the displacement
of item A is `(Δ / dist) · 0.8·overlap` componentwise, item B's displacement
is exactly opposite, and the squared norm of each displacement is
`(0.8 × overlap)²`. -/
theorem C1_pair_push (sq : ℚ → ℚ) (a b : Node)
    (hlt : distSq a b < TILE_SIZE * TILE_SIZE)
    (hpos : 0 < sq (distSq a b))
    (hsq : sq (distSq a b) * sq (distSq a b) = distSq a b) :
    (repelPairUpd sq a b).1.x - a.x
        = ((a.x - b.x) / sq (distSq a b)) * ((TILE_SIZE - sq (distSq a b)) * (0.8 : ℚ)) ∧
    (repelPairUpd sq a b).1.y - a.y
        = ((a.y - b.y) / sq (distSq a b)) * ((TILE_SIZE - sq (distSq a b)) * (0.8 : ℚ)) ∧
    (repelPairUpd sq a b).2.x - b.x
        = -(((a.x - b.x) / sq (distSq a b)) * ((TILE_SIZE - sq (distSq a b)) * (0.8 : ℚ))) ∧
    (repelPairUpd sq a b).2.y - b.y
        = -(((a.y - b.y) / sq (distSq a b)) * ((TILE_SIZE - sq (distSq a b)) * (0.8 : ℚ))) ∧
    ((repelPairUpd sq a b).1.x - a.x) ^ 2 + ((repelPairUpd sq a b).1.y - a.y) ^ 2
        = ((TILE_SIZE - sq (distSq a b)) * (0.8 : ℚ)) ^ 2 := by
  simp only [distSq] at hlt hpos hsq ⊢
  have hne : sq ((a.x - b.x) * (a.x - b.x) + (a.y - b.y) * (a.y - b.y)) ≠ 0 :=
    ne_of_gt hpos
  simp only [repelPairUpd]
  rw [if_pos hlt, if_neg hne]
  dsimp only
  refine ⟨by ring, by ring, by ring, by ring, ?_⟩
  have key : ∀ u v d f : ℚ, d ≠ 0 → d * d = u * u + v * v →
      (u / d * f) ^ 2 + (v / d * f) ^ 2 = f ^ 2 := by
    intro u v d f hd h2
    field_simp
    linear_combination (-(f ^ 2)) * h2
  have h1 : a.x + (a.x - b.x) / sq ((a.x - b.x) * (a.x - b.x) + (a.y - b.y) * (a.y - b.y)) *
      ((TILE_SIZE - sq ((a.x - b.x) * (a.x - b.x) + (a.y - b.y) * (a.y - b.y))) * (0.8 : ℚ)) - a.x
      = (a.x - b.x) / sq ((a.x - b.x) * (a.x - b.x) + (a.y - b.y) * (a.y - b.y)) *
      ((TILE_SIZE - sq ((a.x - b.x) * (a.x - b.x) + (a.y - b.y) * (a.y - b.y))) * (0.8 : ℚ)) := by
    ring
  have h2 : a.y + (a.y - b.y) / sq ((a.x - b.x) * (a.x - b.x) + (a.y - b.y) * (a.y - b.y)) *
      ((TILE_SIZE - sq ((a.x - b.x) * (a.x - b.x) + (a.y - b.y) * (a.y - b.y))) * (0.8 : ℚ)) - a.y
      = (a.y - b.y) / sq ((a.x - b.x) * (a.x - b.x) + (a.y - b.y) * (a.y - b.y)) *
      ((TILE_SIZE - sq ((a.x - b.x) * (a.x - b.x) + (a.y - b.y) * (a.y - b.y))) * (0.8 : ℚ)) := by
    ring
  rw [h1, h2]
  exact key _ _ _ _ hne hsq

/-- Witness for `C1_pair_push` at the concrete pair 100 units apart. -/
theorem C1_pair_push_witness :
    (distSq forceNodeA forceNodeB < TILE_SIZE * TILE_SIZE ∧
     0 < ratSqrt (distSq forceNodeA forceNodeB) ∧
     ratSqrt (distSq forceNodeA forceNodeB) * ratSqrt (distSq forceNodeA forceNodeB)
       = distSq forceNodeA forceNodeB) ∧
    ((repelPairUpd ratSqrt forceNodeA forceNodeB).1.x - forceNodeA.x
        = ((forceNodeA.x - forceNodeB.x) / ratSqrt (distSq forceNodeA forceNodeB)) *
          ((TILE_SIZE - ratSqrt (distSq forceNodeA forceNodeB)) * (0.8 : ℚ)) ∧
     (repelPairUpd ratSqrt forceNodeA forceNodeB).1.y - forceNodeA.y
        = ((forceNodeA.y - forceNodeB.y) / ratSqrt (distSq forceNodeA forceNodeB)) *
          ((TILE_SIZE - ratSqrt (distSq forceNodeA forceNodeB)) * (0.8 : ℚ)) ∧
     (repelPairUpd ratSqrt forceNodeA forceNodeB).2.x - forceNodeB.x
        = -(((forceNodeA.x - forceNodeB.x) / ratSqrt (distSq forceNodeA forceNodeB)) *
          ((TILE_SIZE - ratSqrt (distSq forceNodeA forceNodeB)) * (0.8 : ℚ))) ∧
     (repelPairUpd ratSqrt forceNodeA forceNodeB).2.y - forceNodeB.y
        = -(((forceNodeA.y - forceNodeB.y) / ratSqrt (distSq forceNodeA forceNodeB)) *
          ((TILE_SIZE - ratSqrt (distSq forceNodeA forceNodeB)) * (0.8 : ℚ))) ∧
     ((repelPairUpd ratSqrt forceNodeA forceNodeB).1.x - forceNodeA.x) ^ 2 +
       ((repelPairUpd ratSqrt forceNodeA forceNodeB).1.y - forceNodeA.y) ^ 2
        = ((TILE_SIZE - ratSqrt (distSq forceNodeA forceNodeB)) * (0.8 : ℚ)) ^ 2) :=
  ⟨⟨by rw [distSq_forceNodes]; norm_num [TILE_SIZE],
    by rw [distSq_forceNodes, ratSqrt_val_10000]; norm_num,
    by rw [distSq_forceNodes, ratSqrt_val_10000]; norm_num⟩,
   C1_pair_push ratSqrt forceNodeA forceNodeB
     (by rw [distSq_forceNodes]; norm_num [TILE_SIZE])
     (by rw [distSq_forceNodes, ratSqrt_val_10000]; norm_num)
     (by rw [distSq_forceNodes, ratSqrt_val_10000]; norm_num)⟩

/-- C3 counterexample: two records with identical scores — a pair whose count
comfortably fits the world area (with a ×10 margin) — coincide in the layout
output at Euclidean distance 0, far below `minSeparation − ε` (for any
`ε < 320`, e.g. `ε = 1`): the separation invariant fails as stated. -/
theorem C3_cex :
    2 * (TILE_SIZE * TILE_SIZE) * 10 ≤ WORLD_WIDTH * WORLD_HEIGHT ∧
    (processedProjects ratSqrt [demoProject, demoProject2]).length = 2 ∧
    (∀ a ∈ processedProjects ratSqrt [demoProject, demoProject2],
      ∀ b ∈ processedProjects ratSqrt [demoProject, demoProject2],
        distSq a b = 0) ∧
    (0 : ℚ) < TILE_SIZE - 1 := by
  obtain ⟨a2, b2, hiter, hxx, hyy⟩ :=
    layoutIter_coincident ratSqrt 120 (initialNode demoProject)
      (initialNode demoProject2) rfl rfl
  have hiter2 : layoutIter ratSqrt 120 (initialNodes [demoProject, demoProject2])
      = [a2, b2] := by
    rw [show initialNodes [demoProject, demoProject2]
        = [initialNode demoProject, initialNode demoProject2] from rfl]
    exact hiter
  have hout : processedProjects ratSqrt [demoProject, demoProject2] = [a2, b2] := by
    rw [show processedProjects ratSqrt [demoProject, demoProject2]
        = layoutIter ratSqrt 120 (initialNodes [demoProject, demoProject2]) from rfl]
    exact hiter2
  refine ⟨by norm_num [TILE_SIZE, WORLD_WIDTH, WORLD_HEIGHT], by rw [hout]; rfl,
    ?_, by norm_num [TILE_SIZE]⟩
  intro a ha b hb
  rw [hout] at ha hb
  simp only [List.mem_cons, List.mem_singleton, List.not_mem_nil, or_false] at ha hb
  rcases ha with rfl | rfl <;> rcases hb with rfl | rfl <;>
    simp [distSq, hxx, hyy, sub_self]

/-- C3 (amended): the separation invariant does not hold for every list that
fits the world area (coincident initial placements never separate, see
`C3_cex`); it does hold whenever the initial placements are already pairwise
at least `minSeparation` apart: then no repulsion fires, clamping is the
identity on the margin-respecting initial positions, the output equals the
initial placement, and all output pairs are at Euclidean distance at least
`minSeparation` (= 320, hence at least `minSeparation − ε`). -/
theorem C3_separation (sq : ℚ → ℚ) (ps : List Project)
    (hs : ∀ p ∈ ps, scoreOK p)
    (hfar : (initialNodes ps).Pairwise farPair) :
    processedProjects sq ps = initialNodes ps ∧
    (processedProjects sq ps).Pairwise
      (fun a b => ((TILE_SIZE : ℚ) : ℝ) ≤ Real.sqrt ((distSq a b : ℚ) : ℝ)) := by
  have hb : ∀ nd ∈ initialNodes ps, inBounds nd := by
    intro nd hnd
    obtain ⟨p, hp, rfl⟩ := List.mem_map.mp hnd
    exact initialNode_inBounds p (hs p hp)
  have heq : processedProjects sq ps = initialNodes ps := by
    cases ps with
    | nil => rfl
    | cons p rest =>
      show layoutIter sq 120 (initialNodes (p :: rest)) = initialNodes (p :: rest)
      exact layoutIter_id sq 120 _ hfar hb
  refine ⟨heq, ?_⟩
  rw [heq]
  refine hfar.imp ?_
  intro a b hab
  have h1 : ((TILE_SIZE : ℚ) : ℝ) ^ 2 ≤ ((distSq a b : ℚ) : ℝ) := by
    have h2 : (TILE_SIZE * TILE_SIZE : ℚ) ≤ distSq a b := hab
    calc ((TILE_SIZE : ℚ) : ℝ) ^ 2
        = ((TILE_SIZE * TILE_SIZE : ℚ) : ℝ) := by push_cast; ring
      _ ≤ ((distSq a b : ℚ) : ℝ) := by exact_mod_cast h2
  exact Real.le_sqrt_of_sq_le h1

/-- Witness for `C3_separation` at the two far-apart corner records. -/
theorem C3_separation_witness :
    ((∀ p ∈ [farProj1, farProj2], scoreOK p) ∧
     (initialNodes [farProj1, farProj2]).Pairwise farPair) ∧
    (processedProjects ratSqrt [farProj1, farProj2]
        = initialNodes [farProj1, farProj2] ∧
     (processedProjects ratSqrt [farProj1, farProj2]).Pairwise
       (fun a b => ((TILE_SIZE : ℚ) : ℝ) ≤ Real.sqrt ((distSq a b : ℚ) : ℝ))) := by
  have hsc : ∀ p ∈ [farProj1, farProj2], scoreOK p := by
    intro p hp
    simp only [List.mem_cons, List.mem_singleton, List.not_mem_nil, or_false] at hp
    rcases hp with rfl | rfl <;> norm_num [scoreOK, farProj1, farProj2]
  have hfar : (initialNodes [farProj1, farProj2]).Pairwise farPair := by
    simp only [initialNodes, List.map_cons, List.map_nil, List.pairwise_cons,
      List.mem_singleton, List.not_mem_nil]
    norm_num [farPair, distSq, initialNode, farProj1, farProj2, TILE_SIZE,
      WORLD_WIDTH, WORLD_HEIGHT]
  exact ⟨⟨hsc, hfar⟩, C3_separation ratSqrt [farProj1, farProj2] hsc hfar⟩

/-- C5: every item of the layout output lies in
`[200, worldWidth − 200] × [200, worldHeight − 200]`: the clamp runs at the
end of each of the 120 iterations, so the final positions are clamped.
Holds for every input list (the score hypothesis of the claim is carried but
not even needed) and every square-root function. -/
theorem C5_layout_boundary (sq : ℚ → ℚ) (ps : List Project)
    (hs : ∀ p ∈ ps, scoreOK p) :
    ∀ nd ∈ processedProjects sq ps,
      200 ≤ nd.x ∧ nd.x ≤ WORLD_WIDTH - 200 ∧
      200 ≤ nd.y ∧ nd.y ≤ WORLD_HEIGHT - 200 := by
  intro nd hnd
  cases ps with
  | nil => cases hnd
  | cons p rest =>
    have hmem : nd ∈ layoutIter sq (119 + 1) (initialNodes (p :: rest)) := hnd
    exact layoutIter_inBounds sq 119 _ nd hmem

/-- Witness for `C5_layout_boundary` on a concrete record. -/
theorem C5_layout_boundary_witness :
    (∀ p ∈ [demoProject], scoreOK p) ∧
    (∀ nd ∈ processedProjects ratSqrt [demoProject],
      200 ≤ nd.x ∧ nd.x ≤ WORLD_WIDTH - 200 ∧
      200 ≤ nd.y ∧ nd.y ≤ WORLD_HEIGHT - 200) := by
  have hsc : ∀ p ∈ [demoProject], scoreOK p := by
    intro p hp
    simp only [List.mem_singleton] at hp
    subst hp
    norm_num [scoreOK, demoProject]
  exact ⟨hsc, C5_layout_boundary ratSqrt [demoProject] hsc⟩

/-- C7: no record is ever rejected — the layout output has exactly one item
per input record, in order — and each output item carries the normalized
scores: `techScore ?? 50` and `musicScore ?? artScore ?? 50`, the latter
stored on the single canonical `musicScore` field. -/
theorem C7_score_normalization (sq : ℚ → ℚ) (ps : List Project) :
    (processedProjects sq ps).length = ps.length ∧
    (processedProjects sq ps).map scoreView =
      ps.map (fun p =>
        (p.id, p.techScore.getD 50, p.musicScore.getD (p.artScore.getD 50))) := by
  have hmap : (processedProjects sq ps).map scoreView =
      ps.map (fun p =>
        (p.id, p.techScore.getD 50, p.musicScore.getD (p.artScore.getD 50))) := by
    cases ps with
    | nil => rfl
    | cons p rest =>
      show (layoutIter sq 120 (initialNodes (p :: rest))).map scoreView = _
      rw [layoutIter_scoreView]
      simp only [initialNodes, List.map_map]
      rfl
  refine ⟨?_, hmap⟩
  have hlen := congrArg List.length hmap
  simpa using hlen


/-- C2 counterexample: on a platform that denies audio-context creation,
`initialize()` — a synchronous public method with no try/catch — propagates
the constructor exception instead of logging and returning: the claim that
no public method throws synchronously is false. -/
theorem C2_cex :
    initCtx false initialAudioState
      = Except.error "AudioContext constructor threw" := rfl

/-- C2 (amended): when the platform denies audio-context creation,
`initialize()` throws synchronously (and `start()`, being `async`, surfaces
the same failure as a rejected promise rather than a synchronous throw); the
engine itself logs nothing (callers do).  `updateParams` and `toggleMute`
never throw: with no context they are no-ops (`toggleMute` still records the
flag).  The engine is left in its not-producing-sound state (no context, no
graph), and a later `start()` on a permissive platform succeeds, building
the graph with its 3 oscillators. -/
theorem C2_failure_semantics (x y : ℚ) (m : Bool) :
    initCtx false initialAudioState
        = Except.error "AudioContext constructor threw" ∧
    start false initialAudioState
        = Except.error "AudioContext constructor threw" ∧
    updateParams x y initialAudioState = initialAudioState ∧
    toggleMute m initialAudioState = { initialAudioState with isMuted := m } ∧
    (start true initialAudioState).map (fun st => (st.graphBuilt, st.oscCount))
        = Except.ok (true, 3) :=
  ⟨rfl, rfl, rfl, rfl, rfl⟩

/-- C4: once the engine is started (context and graph exist),
`updateParams(x, y)` retargets exactly: filter cutoff
`300 + (6000 − 300)·x²`, voice A (the left-panned low oscillator)
`110 + 30·y`, voice B (the right-panned high oscillator) `110·1.5 + 35·y`,
and delay feedback gain `0.2 + 0.3·x`.  In particular `(0,0)` targets a
300 Hz cutoff and `(1,1)` targets 6000 Hz, 140 Hz, and 200 Hz. -/
theorem C4_update_targets (s : AudioState) (x y : ℚ)
    (hc : s.ctxCreated = true) (hg : s.graphBuilt = true)
    (hx0 : 0 ≤ x) (hx1 : x ≤ 1) (hy0 : 0 ≤ y) (hy1 : y ≤ 1) :
    (updateParams x y s).filterFreqTarget = 300 + (6000 - 300) * (x * x) ∧
    (updateParams x y s).oscLowFreqTarget = 110 + 30 * y ∧
    (updateParams x y s).oscHighFreqTarget = 110 * (1.5 : ℚ) + 35 * y ∧
    (updateParams x y s).delayGainTarget = (0.2 : ℚ) + (0.3 : ℚ) * x := by
  simp only [updateParams, hc, hg, Bool.not_true, Bool.or_self, Bool.false_eq_true,
    if_false]
  refine ⟨by ring, by ring, by ring, by ring⟩

/-- Witness for `C4_update_targets` at the built state and `(x, y) = (1, 1)`:
cutoff 6000 Hz, voice A 140 Hz, voice B 200 Hz. -/
theorem C4_update_targets_witness :
    (builtOnce.ctxCreated = true ∧ builtOnce.graphBuilt = true ∧
     (0 : ℚ) ≤ 1 ∧ (1 : ℚ) ≤ 1) ∧
    ((updateParams 1 1 builtOnce).filterFreqTarget = 300 + (6000 - 300) * (1 * 1) ∧
     (updateParams 1 1 builtOnce).oscLowFreqTarget = 110 + 30 * 1 ∧
     (updateParams 1 1 builtOnce).oscHighFreqTarget = 110 * (1.5 : ℚ) + 35 * 1 ∧
     (updateParams 1 1 builtOnce).delayGainTarget = (0.2 : ℚ) + (0.3 : ℚ) * 1) :=
  ⟨⟨rfl, rfl, by norm_num, le_refl 1⟩,
   C4_update_targets builtOnce 1 1 rfl rfl (by norm_num) (le_refl 1)
     (by norm_num) (le_refl 1)⟩

/-- C6: `N ≥ 1` sequential settled `start()` calls from the pristine state
(on a permissive platform) produce exactly the once-built state: the signal
chain is constructed exactly once and exactly 3 oscillator nodes are ever
created, independent of `N`. -/
theorem C6_single_build (n : ℕ) (h : 1 ≤ n) :
    startN true n initialAudioState = .ok builtOnce ∧
    builtOnce.oscCount = 3 ∧ builtOnce.buildCount = 1 := by
  obtain ⟨m, rfl⟩ := Nat.exists_eq_add_of_le h
  refine ⟨?_, rfl, rfl⟩
  show startN true (1 + m) initialAudioState = .ok builtOnce
  rw [Nat.add_comm 1 m]
  show (match start true initialAudioState with
    | .error e => Except.error e
    | .ok s1 => startN true m s1) = .ok builtOnce
  rw [start_initial]
  exact startN_stable m

/-- Witness for `C6_single_build` at `N = 5`. -/
theorem C6_single_build_witness :
    1 ≤ 5 ∧
    (startN true 5 initialAudioState = .ok builtOnce ∧
     builtOnce.oscCount = 3 ∧ builtOnce.buildCount = 1) :=
  ⟨by norm_num, C6_single_build 5 (by norm_num)⟩

/-- C8: the first `start()` that builds the graph schedules the master gain
from 0 linearly over 3 seconds to 0.5 — or to 0 instead if `toggleMute(true)`
was called before `start()` (the mute flag is recorded even with no graph). -/
theorem C8_fade_in (m : Bool) :
    (start true (toggleMute m initialAudioState)).map
      (fun st => (st.fadeFrom, st.masterGainTarget, st.fadeSeconds))
    = Except.ok (0, if m then 0 else (0.5 : ℚ), 3) := by
  cases m <;> rfl

/-- C9: before the graph is built `updateParams` is the identity on the
engine state; once built, it changes only the four ramp targets — creating
no oscillator and no graph node (`oscCount`, `buildCount`, flags and master
gain unchanged) — and composing two calls equals the last call alone, so
arbitrarily many repeated calls accumulate no state. -/
theorem C9_update_no_accumulation (s : AudioState) (x y a b : ℚ) :
    ((s.ctxCreated = false ∨ s.graphBuilt = false) → updateParams x y s = s) ∧
    ((updateParams x y s).oscCount = s.oscCount ∧
     (updateParams x y s).buildCount = s.buildCount ∧
     (updateParams x y s).graphBuilt = s.graphBuilt ∧
     (updateParams x y s).ctxCreated = s.ctxCreated ∧
     (updateParams x y s).isPlaying = s.isPlaying ∧
     (updateParams x y s).masterGainTarget = s.masterGainTarget) ∧
    updateParams x y (updateParams a b s) = updateParams x y s := by
  refine ⟨?_, ?_, ?_⟩
  · intro h
    rcases h with h | h <;> simp [updateParams, h]
  · unfold updateParams
    split <;> simp
  · by_cases hc : s.ctxCreated = true <;> by_cases hg : s.graphBuilt = true <;>
      simp [updateParams, hc, hg]

/-- Witness for `C9_update_no_accumulation` at the pristine state (graph not
built) with concrete parameters. -/
theorem C9_update_no_accumulation_witness :
    ((initialAudioState.ctxCreated = false ∨ initialAudioState.graphBuilt = false) →
      updateParams 0 0 initialAudioState = initialAudioState) ∧
    ((updateParams 0 0 initialAudioState).oscCount = initialAudioState.oscCount ∧
     (updateParams 0 0 initialAudioState).buildCount = initialAudioState.buildCount ∧
     (updateParams 0 0 initialAudioState).graphBuilt = initialAudioState.graphBuilt ∧
     (updateParams 0 0 initialAudioState).ctxCreated = initialAudioState.ctxCreated ∧
     (updateParams 0 0 initialAudioState).isPlaying = initialAudioState.isPlaying ∧
     (updateParams 0 0 initialAudioState).masterGainTarget
        = initialAudioState.masterGainTarget) ∧
    updateParams 0 0 (updateParams 1 1 initialAudioState)
        = updateParams 0 0 initialAudioState :=
  C9_update_no_accumulation initialAudioState 0 0 1 1

/-- C10 counterexample: in a three-record list where the first two records
have identical scores (initially coincident at `(1000, 1000)`) and a third
sits nearby at `(1200, 1000)`, the first iteration moves the two coincident
items DIFFERENTLY (the third item is pushed between the two inner-loop
interactions), so they do not stay at the same coordinates in every
iteration: after iteration 1 their x coordinates are `904` and `980.8`. -/
theorem C10_cex :
    cexA.techScore = cexB.techScore ∧ cexA.musicScore = cexB.musicScore ∧
    (layoutIter ratSqrt 1 (initialNodes [cexA, cexB, cexC])).map Node.x
      = [904, 4904 / 5, 6576 / 5] ∧
    (904 : ℚ) ≠ 4904 / 5 := by
  have hinit : initialNodes [cexA, cexB, cexC]
      = [⟨"a", 300 / 11, 800 / 11, 1000, 1000⟩,
         ⟨"b", 300 / 11, 800 / 11, 1000, 1000⟩,
         ⟨"c", 400 / 11, 800 / 11, 1200, 1000⟩] := by
    simp only [initialNodes, List.map_cons, List.map_nil]
    norm_num [initialNode, cexA, cexB, cexC, WORLD_WIDTH, WORLD_HEIGHT]
  have hAB : repelPairUpd ratSqrt
      (⟨"a", 300 / 11, 800 / 11, 1000, 1000⟩ : Node)
      ⟨"b", 300 / 11, 800 / 11, 1000, 1000⟩
      = (⟨"a", 300 / 11, 800 / 11, 1000, 1000⟩,
         ⟨"b", 300 / 11, 800 / 11, 1000, 1000⟩) :=
    repelPairUpd_coincident ratSqrt _ _ rfl rfl
  have hAC : repelPairUpd ratSqrt
      (⟨"a", 300 / 11, 800 / 11, 1000, 1000⟩ : Node)
      ⟨"c", 400 / 11, 800 / 11, 1200, 1000⟩
      = (⟨"a", 300 / 11, 800 / 11, 904, 1000⟩,
         ⟨"c", 400 / 11, 800 / 11, 1296, 1000⟩) := by
    simp only [repelPairUpd]
    norm_num [TILE_SIZE, ratSqrt_val_40000]
  have hBC : repelPairUpd ratSqrt
      (⟨"b", 300 / 11, 800 / 11, 1000, 1000⟩ : Node)
      ⟨"c", 400 / 11, 800 / 11, 1296, 1000⟩
      = (⟨"b", 300 / 11, 800 / 11, 4904 / 5, 1000⟩,
         ⟨"c", 400 / 11, 800 / 11, 6576 / 5, 1000⟩) := by
    simp only [repelPairUpd]
    norm_num [TILE_SIZE, ratSqrt_val_87616]
  have hW1 : repelWith ratSqrt (⟨"a", 300 / 11, 800 / 11, 1000, 1000⟩ : Node)
      [⟨"b", 300 / 11, 800 / 11, 1000, 1000⟩, ⟨"c", 400 / 11, 800 / 11, 1200, 1000⟩]
      = (⟨"a", 300 / 11, 800 / 11, 904, 1000⟩,
         [⟨"b", 300 / 11, 800 / 11, 1000, 1000⟩,
          ⟨"c", 400 / 11, 800 / 11, 1296, 1000⟩]) := by
    simp only [repelWith, hAB, hAC]
  have hW2 : repelWith ratSqrt (⟨"b", 300 / 11, 800 / 11, 1000, 1000⟩ : Node)
      [⟨"c", 400 / 11, 800 / 11, 1296, 1000⟩]
      = (⟨"b", 300 / 11, 800 / 11, 4904 / 5, 1000⟩,
         [⟨"c", 400 / 11, 800 / 11, 6576 / 5, 1000⟩]) := by
    simp only [repelWith, hBC]
  have hpass : repelPass ratSqrt
      [⟨"a", 300 / 11, 800 / 11, 1000, 1000⟩,
       ⟨"b", 300 / 11, 800 / 11, 1000, 1000⟩,
       ⟨"c", 400 / 11, 800 / 11, 1200, 1000⟩]
      = [⟨"a", 300 / 11, 800 / 11, 904, 1000⟩,
         ⟨"b", 300 / 11, 800 / 11, 4904 / 5, 1000⟩,
         ⟨"c", 400 / 11, 800 / 11, 6576 / 5, 1000⟩] := by
    show repelPassAux ratSqrt 3
      [⟨"a", 300 / 11, 800 / 11, 1000, 1000⟩,
       ⟨"b", 300 / 11, 800 / 11, 1000, 1000⟩,
       ⟨"c", 400 / 11, 800 / 11, 1200, 1000⟩] = _
    show (repelWith ratSqrt (⟨"a", 300 / 11, 800 / 11, 1000, 1000⟩ : Node)
        [⟨"b", 300 / 11, 800 / 11, 1000, 1000⟩,
         ⟨"c", 400 / 11, 800 / 11, 1200, 1000⟩]).1
      :: repelPassAux ratSqrt 2
        (repelWith ratSqrt (⟨"a", 300 / 11, 800 / 11, 1000, 1000⟩ : Node)
          [⟨"b", 300 / 11, 800 / 11, 1000, 1000⟩,
           ⟨"c", 400 / 11, 800 / 11, 1200, 1000⟩]).2 = _
    rw [hW1]
    show (⟨"a", 300 / 11, 800 / 11, 904, 1000⟩ : Node)
      :: (repelWith ratSqrt (⟨"b", 300 / 11, 800 / 11, 1000, 1000⟩ : Node)
          [⟨"c", 400 / 11, 800 / 11, 1296, 1000⟩]).1
      :: repelPassAux ratSqrt 1
        (repelWith ratSqrt (⟨"b", 300 / 11, 800 / 11, 1000, 1000⟩ : Node)
          [⟨"c", 400 / 11, 800 / 11, 1296, 1000⟩]).2 = _
    rw [hW2]
    rfl
  have hclamp : clampPass
      [⟨"a", 300 / 11, 800 / 11, 904, 1000⟩,
       ⟨"b", 300 / 11, 800 / 11, 4904 / 5, 1000⟩,
       ⟨"c", 400 / 11, 800 / 11, 6576 / 5, 1000⟩]
      = [⟨"a", 300 / 11, 800 / 11, 904, 1000⟩,
         ⟨"b", 300 / 11, 800 / 11, 4904 / 5, 1000⟩,
         ⟨"c", 400 / 11, 800 / 11, 6576 / 5, 1000⟩] := by
    apply clampPass_id
    intro nd hnd
    simp only [List.mem_cons, List.mem_singleton, List.not_mem_nil, or_false] at hnd
    rcases hnd with rfl | rfl | rfl <;>
      norm_num [inBounds, WORLD_WIDTH, WORLD_HEIGHT]
  refine ⟨rfl, rfl, ?_, by norm_num⟩
  rw [show layoutIter ratSqrt 1 (initialNodes [cexA, cexB, cexC])
      = clampPass (repelPass ratSqrt (initialNodes [cexA, cexB, cexC])) from rfl,
    hinit, hpass, hclamp]
  rfl

/-- C10 (amended): the per-iteration coincidence of two equal-scored records
holds when the input consists of exactly those two records: their initial
positions coincide, every pair interaction between them pushes by the zero
vector (the zero displacement divided by the epsilon-substituted distance),
and clamping respects coincidence — so each iteration state, and the layout
output, keeps them at identical coordinates.  With further items present the
two can be pushed differently (see the counterexample), so the claim fails
for general lists. -/
theorem C10_coincident_pair (sq : ℚ → ℚ) (p q : Project)
    (ht : p.techScore.getD 50 = q.techScore.getD 50)
    (hm : p.musicScore.getD (p.artScore.getD 50)
        = q.musicScore.getD (q.artScore.getD 50)) :
    ((initialNode p).x = (initialNode q).x ∧
     (initialNode p).y = (initialNode q).y) ∧
    (∀ k a b, layoutIter sq k (initialNodes [p, q]) = [a, b] →
      a.x = b.x ∧ a.y = b.y) ∧
    (∀ a b, processedProjects sq [p, q] = [a, b] → a.x = b.x ∧ a.y = b.y) := by
  have hix : (initialNode p).x = (initialNode q).x := by
    simp only [initialNode]
    rw [ht]
  have hiy : (initialNode p).y = (initialNode q).y := by
    simp only [initialNode]
    rw [hm]
  have hmain : ∀ k a b, layoutIter sq k (initialNodes [p, q]) = [a, b] →
      a.x = b.x ∧ a.y = b.y := by
    intro k a b hab
    obtain ⟨a2, b2, h1, h2, h3⟩ :=
      layoutIter_coincident sq k (initialNode p) (initialNode q) hix hiy
    have h1x : layoutIter sq k (initialNodes [p, q]) = [a2, b2] := h1
    rw [h1x] at hab
    injection hab with e1 rest
    injection rest with e2 _
    subst e1
    subst e2
    exact ⟨h2, h3⟩
  have hlast : ∀ a b, processedProjects sq [p, q] = [a, b] →
      a.x = b.x ∧ a.y = b.y := by
    intro a b hab
    exact hmain 120 a b hab
  exact ⟨⟨hix, hiy⟩, hmain, hlast⟩

/-- Witness for `C10_coincident_pair` at two records with identical mid
scores. -/
theorem C10_coincident_pair_witness :
    (demoProject.techScore.getD 50 = demoProject2.techScore.getD 50 ∧
     demoProject.musicScore.getD (demoProject.artScore.getD 50)
        = demoProject2.musicScore.getD (demoProject2.artScore.getD 50)) ∧
    (((initialNode demoProject).x = (initialNode demoProject2).x ∧
      (initialNode demoProject).y = (initialNode demoProject2).y) ∧
     (∀ k a b,
        layoutIter ratSqrt k (initialNodes [demoProject, demoProject2]) = [a, b] →
          a.x = b.x ∧ a.y = b.y) ∧
     (∀ a b, processedProjects ratSqrt [demoProject, demoProject2] = [a, b] →
        a.x = b.x ∧ a.y = b.y)) :=
  ⟨⟨rfl, rfl⟩, C10_coincident_pair ratSqrt demoProject demoProject2 rfl rfl⟩

end CreativeField
